import Mathlib

/-!
Shallow embedding of the Atomicity demo repository: the Sequelize-backed
transaction service (`createUserWithAddresses`, `deleteUser`), the
business-rule validator of `ConsistencyService.demonstrateBusinessRuleConsistency`,
and the isolation demonstration harness (`IsolationService`).

The relational store is modelled as an explicit state (`DBState`) holding the
two tables.  A transaction is modelled by explicit state passing: writes inside
an open transaction act on a pending copy of the committed state; `commit`
publishes the pending copy, `rollback` discards it and keeps the committed
state.  Fallible storage operations (unique-email constraint on `users.email`,
foreign-key constraint on `addresses.user_id`) return `Except String`.
-/

/-- Row of the `users` table (`models/User`): integer id, name, unique email. -/
structure UserRow where
  id : Nat
  name : String
  email : String
deriving Repr, DecidableEq

/-- Row of the `addresses` table (`models/Address`). -/
structure AddressRow where
  id : Nat
  street : String
  city : String
  state : String
  zipCode : String
  country : String
  userId : Nat
deriving Repr, DecidableEq

/-- Input shape for one address in `CreateUserWithAddressesData.addresses`. -/
structure AddressData where
  street : String
  city : String
  state : String
  zipCode : String
  country : String
deriving Repr, DecidableEq

/-- Input shape for the user part of `CreateUserWithAddressesData`. -/
structure UserData where
  name : String
  email : String
deriving Repr, DecidableEq

/-- Input of `TransactionService.createUserWithAddresses`. -/
structure CreateUserWithAddressesData where
  user : UserData
  addresses : List AddressData
deriving Repr, DecidableEq

/-- Committed database state: the two tables plus the auto-increment counters. -/
structure DBState where
  users : List UserRow
  addresses : List AddressRow
  nextUserId : Nat
  nextAddressId : Nat
deriving Repr, DecidableEq

/-- Sequelize `User.findByPk(id)` on a given view of the database. -/
def findUserByPk (db : DBState) (id : Nat) : Option UserRow :=
  db.users.find? (fun u => u.id == id)

/-- Whether some user row of the view already carries this email
(the unique constraint on `users.email`). -/
def emailTaken (db : DBState) (email : String) : Bool :=
  db.users.any (fun u => u.email == email)

/-- Sequelize `User.create({name, email})`: fails on a unique-email violation,
otherwise appends the new row and bumps the auto-increment counter. -/
def userCreate (db : DBState) (name email : String) :
    Except String (UserRow × DBState) :=
  if emailTaken db email then
    .error "Validation error: email must be unique"
  else
    let u : UserRow := ⟨db.nextUserId, name, email⟩
    .ok (u, { db with users := db.users ++ [u], nextUserId := db.nextUserId + 1 })

/-- Sequelize `Address.create({street, ..., userId})`: fails when `userId`
references no existing user row (foreign-key constraint), otherwise appends
the new row. -/
def addressCreate (db : DBState) (a : AddressData) (userId : Nat) :
    Except String (AddressRow × DBState) :=
  match findUserByPk db userId with
  | none => .error "insert or update on table addresses violates foreign key constraint"
  | some _ =>
    let r : AddressRow := ⟨db.nextAddressId, a.street, a.city, a.state, a.zipCode, a.country, userId⟩
    .ok (r, { db with addresses := db.addresses ++ [r], nextAddressId := db.nextAddressId + 1 })

/-- The `for` loop of `createUserWithAddresses`: create each address in input
order inside the transaction view, pushing each saved row onto the
accumulator; the first storage error aborts the loop. -/
def createAddressesLoop (db : DBState) (userId : Nat)
    (items : List AddressData) (acc : List AddressRow) :
    Except String (List AddressRow × DBState) :=
  match items with
  | [] => .ok (acc, db)
  | a :: rest =>
    match addressCreate db a userId with
    | .error e => .error e
    | .ok (r, db1) => createAddressesLoop db1 userId rest (acc ++ [r])

/-- TransactionService.createUserWithAddresses: opens a transaction, creates
the user, then each address referencing the new user id; if `shouldFail` is
set it throws the simulated failure; any error rolls the transaction back
(the committed state is returned unchanged) and is rethrown; otherwise the
transaction commits (the pending state becomes the committed state). -/
def createUserWithAddresses (db : DBState) (data : CreateUserWithAddressesData)
    (shouldFail : Bool) :
    Except String (UserRow × List AddressRow) × DBState :=
  match userCreate db data.user.name data.user.email with
  | .error e => (.error e, db)
  | .ok (savedUser, p1) =>
    match createAddressesLoop p1 savedUser.id data.addresses [] with
    | .error e => (.error e, db)
    | .ok (addrs, p2) =>
      if shouldFail then
        (.error "Simulated transaction failure for testing rollback", db)
      else
        (.ok (savedUser, addrs), p2)

/-- TransactionService.deleteUser: opens a transaction, loads the user by
primary key; when absent it throws `User not found` and rolls back; when
present it deletes all addresses whose `userId` matches, then the user row,
and commits, returning `true`. -/
def deleteUser (db : DBState) (userId : Nat) : Except String Bool × DBState :=
  match findUserByPk db userId with
  | none => (.error "User not found", db)
  | some user =>
    let p1 := { db with addresses := db.addresses.filter (fun a => !(a.userId == user.id)) }
    let p2 := { p1 with users := p1.users.filter (fun u => !(u.id == user.id)) }
    (.ok true, p2)

/-- The zip-code business rule of `demonstrateBusinessRuleConsistency`:
the regular expression test `^\d{5}$`, i.e. exactly five decimal digits. -/
def zipCodeValid (z : String) : Bool :=
  z.length == 5 && z.data.all Char.isDigit

/-- The business-rule validation block of
`ConsistencyService.demonstrateBusinessRuleConsistency`: collects all
violations in order — email must contain an `@`, name at least 3 characters,
at least one address, and each address zip code must be five digits (one
message per offending address carrying its literal zip code). -/
def validate (userData : UserData) (addresses : List AddressData) : List String :=
  let violations : List String := []
  let violations :=
    if userData.email.data.contains '@' then violations
    else violations ++ ["Email must contain @ symbol"]
  let violations :=
    if userData.name.length < 3 then violations ++ ["Name must be at least 3 characters"]
    else violations
  let violations :=
    if addresses.isEmpty then violations ++ ["User must have at least one address"]
    else violations
  addresses.foldl
    (fun acc a =>
      if zipCodeValid a.zipCode then acc
      else acc ++ ["Invalid zip code format: " ++ a.zipCode])
    violations

/-- How a transactional context of the isolation harness ended by the time the
call returned: committed, rolled back, or still open (leaked). -/
inductive TxEnd where
  | committed
  | rolledBack
  | leftOpen
deriving Repr, DecidableEq

/-- Per-call record of the two transactional contexts of a demonstration:
`none` means the context was never opened. -/
structure TxLog where
  t1 : Option TxEnd
  t2 : Option TxEnd
deriving Repr, DecidableEq

/-- Sequelize `User.update({name}, {where: {id}})` on a transaction view. -/
def updateUserName (db : DBState) (id : Nat) (newName : String) : DBState :=
  { db with
    users := db.users.map (fun u => if u.id == id then { u with name := newName } else u) }

/-- Report of `demonstrateDirtyRead`. -/
structure DirtyReadReport where
  before : String
  after : String
  readValue : String
deriving Repr, DecidableEq

/-- IsolationService.demonstrateDirtyRead: transaction 1 reads the user,
updates the name without committing; transaction 2 reads the row (on the
backing store both contexts run read-committed, so transaction 2 sees the
committed value); both contexts are rolled back.  The catch handler rolls
back only transaction 1, so an error raised after transaction 2 opened would
leave transaction 2 open; a missing user raises before transaction 2 opens. -/
def demonstrateDirtyRead (db : DBState) (userId : Nat) :
    Except String DirtyReadReport × DBState × TxLog :=
  match findUserByPk db userId with
  | none => (.error "User not found", db, ⟨some .rolledBack, none⟩)
  | some user =>
    let beforeName := user.name
    let p1 := updateUserName db userId (user.name ++ "_UPDATED")
    match findUserByPk p1 userId with
    | none => (.error "TypeError: null dereference", db, ⟨some .rolledBack, none⟩)
    | some updatedUser =>
      match findUserByPk db userId with
      | none => (.error "TypeError: null dereference", db, ⟨some .rolledBack, some .leftOpen⟩)
      | some userInT2 =>
        (.ok ⟨beforeName, updatedUser.name, userInT2.name⟩, db,
          ⟨some .rolledBack, some .rolledBack⟩)

/-- Report of `demonstrateReadCommitted`. -/
structure ReadCommittedReport where
  before : String
  after : String
  readValue : String
  readAfterCommit : String
deriving Repr, DecidableEq

/-- IsolationService.demonstrateReadCommitted: transaction 1 updates the name
and commits; transaction 2 reads once before the commit (seeing the old
committed value) and once after (seeing the new value), then rolls back.  The
committed name update persists.  The catch handler rolls back only
transaction 1. -/
def demonstrateReadCommitted (db : DBState) (userId : Nat) :
    Except String ReadCommittedReport × DBState × TxLog :=
  match findUserByPk db userId with
  | none => (.error "User not found", db, ⟨some .rolledBack, none⟩)
  | some user =>
    let beforeName := user.name
    let p1 := updateUserName db userId (user.name ++ "_UPDATED")
    match findUserByPk p1 userId with
    | none => (.error "TypeError: null dereference", db, ⟨some .rolledBack, none⟩)
    | some updatedUser =>
      match findUserByPk db userId with
      | none => (.error "TypeError: null dereference", db, ⟨some .rolledBack, some .leftOpen⟩)
      | some userInT2Before =>
        match findUserByPk p1 userId with
        | none => (.error "TypeError: null dereference", p1, ⟨some .committed, some .leftOpen⟩)
        | some userInT2After =>
          (.ok ⟨beforeName, updatedUser.name, userInT2Before.name, userInT2After.name⟩,
            p1, ⟨some .committed, some .rolledBack⟩)

/-- Report of `demonstrateRepeatableRead`. -/
structure RepeatableReadReport where
  read1 : String
  read2 : String
  read3 : String
  updated : Bool
deriving Repr, DecidableEq

/-- IsolationService.demonstrateRepeatableRead: both contexts open before the
try block; transaction 1 reads three times from its snapshot while
transaction 2 commits an interleaved name update; transaction 1 rolls back.
The committed update of transaction 2 persists.  The catch handler rolls back
both contexts. -/
def demonstrateRepeatableRead (db : DBState) (userId : Nat) :
    Except String RepeatableReadReport × DBState × TxLog :=
  match findUserByPk db userId with
  | none => (.error "TypeError: null dereference", db, ⟨some .rolledBack, some .rolledBack⟩)
  | some user1 =>
    let db2 := updateUserName db userId (user1.name ++ "_UPDATED_BY_T2")
    match findUserByPk db userId with
    | none => (.error "TypeError: null dereference", db2, ⟨some .rolledBack, some .committed⟩)
    | some user2 =>
      match findUserByPk db userId with
      | none => (.error "TypeError: null dereference", db2, ⟨some .rolledBack, some .committed⟩)
      | some user3 =>
        (.ok ⟨user1.name, user2.name, user3.name, true⟩, db2,
          ⟨some .rolledBack, some .committed⟩)

/-- Report of `demonstrateNonRepeatableRead`. -/
structure NonRepeatableReadReport where
  read1 : String
  read2 : String
  updated : Bool
deriving Repr, DecidableEq

/-- IsolationService.demonstrateNonRepeatableRead: transaction 1 (read
committed) reads the name; transaction 2 commits a name update; transaction 1
reads again, now seeing the committed new value, and rolls back.  The
committed update persists.  A missing user raises a null dereference before
transaction 2 opens; the catch handler rolls back only transaction 1. -/
def demonstrateNonRepeatableRead (db : DBState) (userId : Nat) :
    Except String NonRepeatableReadReport × DBState × TxLog :=
  match findUserByPk db userId with
  | none => (.error "TypeError: null dereference", db, ⟨some .rolledBack, none⟩)
  | some user1 =>
    let db2 := updateUserName db userId (user1.name ++ "_UPDATED")
    match findUserByPk db2 userId with
    | none => (.error "TypeError: null dereference", db2, ⟨some .rolledBack, some .committed⟩)
    | some user2 =>
      (.ok ⟨user1.name, user2.name, true⟩, db2, ⟨some .rolledBack, some .committed⟩)

/-- Report of `demonstratePhantomRead`. -/
structure PhantomReadReport where
  count1 : Nat
  count2 : Nat
  inserted : Bool
deriving Repr, DecidableEq

/-- The email `phantom_${Date.now()}@example.com` used by the phantom-read
demonstration; the clock reading is an explicit parameter of the model. -/
def phantomEmail (now : Nat) : String :=
  "phantom_" ++ toString now ++ "@example.com"

/-- IsolationService.demonstratePhantomRead: transaction 1 counts the users;
transaction 2 inserts a new user and commits; transaction 1 counts again
(read committed, so it sees the committed insert) and rolls back.  When the
insert hits the unique-email constraint the raised error reaches the catch
handler, which rolls back only transaction 1 — transaction 2 is left open. -/
def demonstratePhantomRead (db : DBState) (now : Nat) :
    Except String PhantomReadReport × DBState × TxLog :=
  let count1 := db.users.length
  match userCreate db "Phantom User" (phantomEmail now) with
  | .error e => (.error e, db, ⟨some .rolledBack, some .leftOpen⟩)
  | .ok (_, p2) =>
    (.ok ⟨count1, p2.users.length, true⟩, p2, ⟨some .rolledBack, some .committed⟩)

/-- Absence of a leaked transactional context in a demonstration record. -/
def TxLog.noLeak (l : TxLog) : Prop :=
  l.t1 ≠ some TxEnd.leftOpen ∧ l.t2 ≠ some TxEnd.leftOpen

/-- Empty database, auto-increment counters at 1. -/
def db0 : DBState := ⟨[], [], 1, 1⟩

/-- The rollback-test payload of the manual test script. -/
def data0 : CreateUserWithAddressesData :=
  ⟨⟨"Bob Smith", "bob.smith@example.com"⟩,
   [⟨"789 Failure Lane", "Failure City", "FC", "99999", "USA"⟩]⟩

/-- A one-user database used by the isolation-demonstration witnesses. -/
def dbA : DBState := ⟨[⟨1, "Alice", "alice@example.com"⟩], [], 2, 1⟩

/-- A database already holding the email the phantom-read demonstration will
try to insert at clock reading 42. -/
def dbP : DBState := ⟨[⟨1, "Eve", "phantom_42@example.com"⟩], [], 2, 1⟩

theorem find?_map_rename (l : List UserRow) (i : Nat) (n : String) :
    (l.map (fun u => if u.id == i then { u with name := n } else u)).find?
        (fun u => u.id == i) =
      (l.find? (fun u => u.id == i)).map (fun u => { u with name := n }) := by
  rw [List.find?_map]
  have hpf : ((fun u : UserRow => u.id == i) ∘
      fun u => if u.id == i then { u with name := n } else u) =
      fun u : UserRow => u.id == i := by
    funext u
    by_cases h : u.id = i
    · simp [h]
    · simp [h]
  rw [hpf]
  cases hf : l.find? (fun u => u.id == i) with
  | none => rfl
  | some u =>
    have hu : u.id = i := by simpa using List.find?_some hf
    simp [hu]

theorem findUserByPk_updateUserName_self (db : DBState) (i : Nat) (n : String) :
    findUserByPk (updateUserName db i n) i =
      (findUserByPk db i).map (fun u => { u with name := n }) := by
  unfold findUserByPk updateUserName
  exact find?_map_rename db.users i n

theorem find?_some_id_eq {db : DBState} {i : Nat} {u : UserRow}
    (h : findUserByPk db i = some u) : u.id = i := by
  have := List.find?_some h
  simpa using this

theorem createAddressesLoop_ok_spec (items : List AddressData) :
    ∀ (db : DBState) (uid : Nat) (acc res : List AddressRow) (p2 : DBState),
      createAddressesLoop db uid items acc = .ok (res, p2) →
      ∃ rs, res = acc ++ rs ∧
        rs.length = items.length ∧
        rs.map (fun r => r.userId) = items.map (fun _ => uid) ∧
        rs.map (fun r => (r.street, r.city, r.state, r.zipCode, r.country)) =
          items.map (fun a => (a.street, a.city, a.state, a.zipCode, a.country)) ∧
        p2.users = db.users ∧ p2.addresses = db.addresses ++ rs := by
  induction items with
  | nil =>
    intro db uid acc res p2 h
    unfold createAddressesLoop at h
    refine ⟨[], ?_⟩
    cases h
    simp
  | cons a rest ih =>
    intro db uid acc res p2 h
    unfold createAddressesLoop at h
    unfold addressCreate at h
    cases hf : findUserByPk db uid with
    | none => rw [hf] at h; cases h
    | some w =>
      rw [hf] at h
      simp only at h
      rcases ih _ _ _ _ _ h with ⟨rs, hres, hlen, huid, hfields, husers, haddrs⟩
      refine ⟨⟨db.nextAddressId, a.street, a.city, a.state, a.zipCode, a.country, uid⟩ :: rs,
        ?_, ?_, ?_, ?_, ?_, ?_⟩
      · rw [hres]; simp
      · simp [hlen]
      · simp [huid]
      · simp [hfields]
      · simpa using husers
      · rw [haddrs]; simp

/-- C1: whenever createUserWithAddresses fails — via the forced-failure flag
or an organic storage error, after any number of writes issued inside the
transaction — the call raises only after the transaction is rolled back in
full: the post-call database state equals the pre-call state, so parent and
dependent row counts are unchanged and none of the attempted rows is
observable. -/
theorem createUserWithAddresses_failure_rolls_back
    (db : DBState) (data : CreateUserWithAddressesData) (shouldFail : Bool)
    (h : (createUserWithAddresses db data shouldFail).1.isOk = false) :
    (createUserWithAddresses db data shouldFail).2 = db ∧
    (createUserWithAddresses db data shouldFail).2.users.length = db.users.length ∧
    (createUserWithAddresses db data shouldFail).2.addresses.length = db.addresses.length := by
  have hmain : (createUserWithAddresses db data shouldFail).2 = db := by
    unfold createUserWithAddresses at h ⊢
    rcases hu : userCreate db data.user.name data.user.email with e | ⟨savedUser, p1⟩
    · simp only [hu]
    · simp only [hu] at h ⊢
      rcases hl : createAddressesLoop p1 savedUser.id data.addresses [] with e | ⟨addrs, p2⟩
      · simp only [hl]
      · simp only [hl] at h ⊢
        cases shouldFail
        · simp [Except.isOk, Except.toBool] at h
        · simp
  exact ⟨hmain, by rw [hmain], by rw [hmain]⟩

/-- C1 witness: the forced-failure call on the rollback-test payload fails and
leaves the empty database exactly as it was. -/
theorem createUserWithAddresses_failure_rolls_back_witness :
    (createUserWithAddresses db0 data0 true).1.isOk = false ∧
    ((createUserWithAddresses db0 data0 true).2 = db0 ∧
     (createUserWithAddresses db0 data0 true).2.users.length = db0.users.length ∧
     (createUserWithAddresses db0 data0 true).2.addresses.length = db0.addresses.length) :=
  ⟨rfl, createUserWithAddresses_failure_rolls_back db0 data0 true rfl⟩

/-- C2 counterexample: a call with the forced-failure flag set and a
non-empty dependent list is still deliberately failed — it raises the
simulated-failure error instead of committing, so the claimed trigger
condition (fail only when no dependents were supplied) does not match the
code. -/
theorem forced_failure_with_dependents_still_fails :
    data0.addresses ≠ [] ∧
    (createUserWithAddresses db0 data0 true).1 =
      .error "Simulated transaction failure for testing rollback" := by
  exact ⟨by simp [data0], rfl⟩

/-- C2 amended: createUserWithAddresses triggers its deliberate failure
whenever the forced-failure flag is set, regardless of how many dependents
were supplied and with no wait: with the flag set the call never commits and
always leaves the database unchanged. -/
theorem createUserWithAddresses_forced_failure_unconditional
    (db : DBState) (data : CreateUserWithAddressesData) :
    (createUserWithAddresses db data true).1.isOk = false ∧
    (createUserWithAddresses db data true).2 = db := by
  unfold createUserWithAddresses
  rcases hu : userCreate db data.user.name data.user.email with e | ⟨savedUser, p1⟩
  · simp [hu, Except.isOk, Except.toBool]
  · simp only [hu]
    rcases hl : createAddressesLoop p1 savedUser.id data.addresses [] with e | ⟨addrs, p2⟩
    · simp [hl, Except.isOk, Except.toBool]
    · simp [hl, Except.isOk, Except.toBool]

/-- C3 counterexample: on the invalid payload the validator returns the three
violations with the contact-format message first and the name-length message
second, not in the claimed order (name length first, contact format second). -/
theorem validate_order_counterexample :
    validate ⟨"AB", "invalid-email"⟩ [⟨"s", "c", "st", "123", "USA"⟩] =
      ["Email must contain @ symbol", "Name must be at least 3 characters",
       "Invalid zip code format: 123"] ∧
    ["Email must contain @ symbol", "Name must be at least 3 characters",
     "Invalid zip code format: 123"] ≠
      ["Name must be at least 3 characters", "Email must contain @ symbol",
       "Invalid zip code format: 123"] := by
  refine ⟨rfl, ?_⟩
  decide

/-- C3 amended: validate on the invalid payload returns exactly three
violations — contact format first, name length second, postal code format
third, in that order — and on the valid payload returns the empty list. -/
theorem validate_concrete_evaluations :
    validate ⟨"AB", "invalid-email"⟩ [⟨"s", "c", "st", "123", "USA"⟩] =
      ["Email must contain @ symbol", "Name must be at least 3 characters",
       "Invalid zip code format: 123"] ∧
    validate ⟨"Valid Name", "a@b.com"⟩ [⟨"s", "c", "st", "12345", "USA"⟩] = [] :=
  ⟨rfl, rfl⟩

theorem foldl_zip_violations (as : List AddressData) :
    ∀ init : List String,
      as.foldl (fun acc a => if zipCodeValid a.zipCode then acc
        else acc ++ ["Invalid zip code format: " ++ a.zipCode]) init =
      init ++ (as.filter (fun a => !(zipCodeValid a.zipCode))).map
        (fun a => "Invalid zip code format: " ++ a.zipCode) := by
  induction as with
  | nil => intro init; simp
  | cons a rest ih =>
    intro init
    by_cases h : zipCodeValid a.zipCode
    · simp [List.foldl_cons, h, ih]
    · simp [List.foldl_cons, h, ih]

/-- C4: the validator evaluates its four rules in the fixed order — contact
identifier contains an `@`, display name length at least 3, at least one
dependent supplied, each dependent zip code exactly five decimal digits —
collecting all violations without short-circuiting, with one message per
offending dependent carrying that dependent's literal zip code, and returns
the empty list exactly when every rule passes. -/
theorem validate_rules_decomposition (u : UserData) (as : List AddressData) :
    validate u as =
      (if u.email.data.contains '@' then [] else ["Email must contain @ symbol"]) ++
      (if u.name.length < 3 then ["Name must be at least 3 characters"] else []) ++
      (if as.isEmpty then ["User must have at least one address"] else []) ++
      (as.filter (fun a => !(zipCodeValid a.zipCode))).map
        (fun a => "Invalid zip code format: " ++ a.zipCode) ∧
    (validate u as = [] ↔
      u.email.data.contains '@' = true ∧ 3 ≤ u.name.length ∧ as ≠ [] ∧
      ∀ a ∈ as, zipCodeValid a.zipCode = true) := by
  have hdec : validate u as =
      (if u.email.data.contains '@' then [] else ["Email must contain @ symbol"]) ++
      (if u.name.length < 3 then ["Name must be at least 3 characters"] else []) ++
      (if as.isEmpty then ["User must have at least one address"] else []) ++
      (as.filter (fun a => !(zipCodeValid a.zipCode))).map
        (fun a => "Invalid zip code format: " ++ a.zipCode) := by
    unfold validate
    rw [foldl_zip_violations]
    by_cases h1 : u.email.data.contains '@' <;>
      by_cases h2 : u.name.length < 3 <;>
        by_cases h3 : as.isEmpty <;>
          simp [h1, h2, h3]
  refine ⟨hdec, ?_⟩
  rw [hdec]
  clear hdec
  by_cases h1 : u.email.data.contains '@' <;>
    by_cases h2 : u.name.length < 3 <;>
      by_cases h3 : as.isEmpty <;>
        simp_all [List.filter_eq_nil_iff, List.isEmpty_iff, Nat.not_lt]

/-- C5: deleteUser fails with a not-found error and rolls back — leaving the
database unchanged — when no user with the given id exists; when the user
exists with at least one address, it deletes all addresses referencing the id
and then the user inside one committed transaction, after which the user is
unfindable and its address count is 0, and it returns true. -/
theorem deleteUser_cascade_spec (db : DBState) (userId : Nat) :
    (findUserByPk db userId = none →
      deleteUser db userId = (.error "User not found", db)) ∧
    (∀ u, findUserByPk db userId = some u →
      1 ≤ (db.addresses.filter (fun a => a.userId == userId)).length →
      (deleteUser db userId).1 = .ok true ∧
      findUserByPk (deleteUser db userId).2 userId = none ∧
      ((deleteUser db userId).2.addresses.filter (fun a => a.userId == userId)).length = 0) := by
  constructor
  · intro h
    unfold deleteUser
    rw [h]
  · intro u hu _
    have hid : u.id = userId := find?_some_id_eq hu
    simp only [deleteUser, hu]
    refine ⟨by trivial, ?_, ?_⟩
    · unfold findUserByPk
      rw [List.find?_eq_none]
      intro x hx
      rcases List.mem_filter.mp hx with ⟨_, hq⟩
      simp only [hid] at hq
      simpa using hq
    · rw [List.length_eq_zero, List.filter_eq_nil_iff]
      intro a ha
      rcases List.mem_filter.mp ha with ⟨_, hq⟩
      simp only [hid] at hq
      simpa using hq

/-- Database with one user owning one address, used by the delete witnesses. -/
def dbD : DBState :=
  ⟨[⟨1, "Alice", "alice@example.com"⟩], [⟨1, "s", "c", "st", "12345", "USA", 1⟩], 2, 2⟩

/-- C5 witness: deleting a missing user leaves the empty database unchanged,
and deleting the one user of `dbD` removes the user and its address. -/
theorem deleteUser_cascade_spec_witness :
    (findUserByPk db0 5 = none ∧ deleteUser db0 5 = (.error "User not found", db0)) ∧
    (findUserByPk dbD 1 = some ⟨1, "Alice", "alice@example.com"⟩ ∧
     1 ≤ (dbD.addresses.filter (fun a => a.userId == 1)).length ∧
     ((deleteUser dbD 1).1 = .ok true ∧
      findUserByPk (deleteUser dbD 1).2 1 = none ∧
      ((deleteUser dbD 1).2.addresses.filter (fun a => a.userId == 1)).length = 0)) :=
  ⟨⟨rfl, (deleteUser_cascade_spec db0 5).1 rfl⟩,
   ⟨rfl, by decide,
    (deleteUser_cascade_spec dbD 1).2 ⟨1, "Alice", "alice@example.com"⟩ rfl (by decide)⟩⟩

/-- C10: whenever deleteUser returns normally it returns true — no input
makes it return false; a missing user is signaled only by the raised
`User not found` error after rollback, with the database unchanged. -/
theorem deleteUser_true_or_raises (db : DBState) (userId : Nat) :
    (∀ b, (deleteUser db userId).1 = .ok b → b = true) ∧
    (findUserByPk db userId = none →
      deleteUser db userId = (.error "User not found", db)) := by
  constructor
  · intro b hb
    unfold deleteUser at hb
    cases hf : findUserByPk db userId with
    | none => rw [hf] at hb; cases hb
    | some u =>
      rw [hf] at hb
      simp only at hb
      injection hb with h2
      exact h2.symm
  · intro h
    unfold deleteUser
    rw [h]

/-- C10 witness: on the one-user database the delete returns true, and on the
empty database the call raises `User not found` leaving the state unchanged. -/
theorem deleteUser_true_or_raises_witness :
    ((deleteUser dbD 1).1 = .ok true ∧ true = true) ∧
    (findUserByPk db0 7 = none ∧ deleteUser db0 7 = (.error "User not found", db0)) :=
  ⟨⟨rfl, (deleteUser_true_or_raises dbD 1).1 true rfl⟩,
   ⟨rfl, (deleteUser_true_or_raises db0 7).2 rfl⟩⟩

/-- C8: on success, createUserWithAddresses writes the parent row and then
each dependent row in the order supplied, each referencing the created
parent's id, commits, and returns the created parent with the created
dependents in the same length and order as the input, each with userId equal
to the parent's id. -/
theorem createUserWithAddresses_success_spec
    (db : DBState) (data : CreateUserWithAddressesData) (shouldFail : Bool)
    (u : UserRow) (as : List AddressRow)
    (h : (createUserWithAddresses db data shouldFail).1 = .ok (u, as)) :
    as.length = data.addresses.length ∧
    as.map (fun r => r.userId) = data.addresses.map (fun _ => u.id) ∧
    as.map (fun r => (r.street, r.city, r.state, r.zipCode, r.country)) =
      data.addresses.map (fun a => (a.street, a.city, a.state, a.zipCode, a.country)) ∧
    (createUserWithAddresses db data shouldFail).2.users = db.users ++ [u] ∧
    (createUserWithAddresses db data shouldFail).2.addresses = db.addresses ++ as := by
  unfold createUserWithAddresses at h ⊢
  rcases hu : userCreate db data.user.name data.user.email with e | ⟨savedUser, p1⟩
  · simp only [hu] at h; cases h
  · simp only [hu] at h ⊢
    rcases hl : createAddressesLoop p1 savedUser.id data.addresses [] with e | ⟨addrs, p2⟩
    · simp only [hl] at h; cases h
    · simp only [hl] at h ⊢
      cases shouldFail with
      | true => simp at h
      | false =>
        have h2 : savedUser = u ∧ addrs = as := by
          have h3 : Except.ok (savedUser, addrs) = Except.ok (u, as) := h
          simpa using h3
        obtain ⟨rfl, rfl⟩ := h2
        rcases createAddressesLoop_ok_spec data.addresses p1 savedUser.id [] addrs p2 hl with
          ⟨rs, hres, hlen, huid, hfields, husers, haddrs⟩
        have hrs : addrs = rs := by simpa using hres
        subst hrs
        have hp1 : p1.users = db.users ++ [savedUser] ∧ p1.addresses = db.addresses := by
          unfold userCreate at hu
          by_cases he : emailTaken db data.user.email
          · rw [if_pos he] at hu; cases hu
          · rw [if_neg he] at hu
            simp only [Except.ok.injEq, Prod.mk.injEq] at hu
            obtain ⟨hsu, hp⟩ := hu
            rw [← hp, hsu]
            exact ⟨rfl, rfl⟩
        refine ⟨hlen, huid, hfields, ?_, ?_⟩
        · show p2.users = db.users ++ [savedUser]
          rw [husers, hp1.1]
        · show p2.addresses = db.addresses ++ addrs
          rw [haddrs, hp1.2]

/-- Success payload of the demo test suite: John Doe with two addresses. -/
def dataS : CreateUserWithAddressesData :=
  ⟨⟨"John Doe", "john.doe@example.com"⟩,
   [⟨"123 Main St", "New York", "NY", "10001", "USA"⟩,
    ⟨"456 Oak Ave", "Los Angeles", "CA", "90001", "USA"⟩]⟩

/-- The user row the success payload creates on the empty database. -/
def userS : UserRow := ⟨1, "John Doe", "john.doe@example.com"⟩

/-- The address rows the success payload creates on the empty database. -/
def addrsS : List AddressRow :=
  [⟨1, "123 Main St", "New York", "NY", "10001", "USA", 1⟩,
   ⟨2, "456 Oak Ave", "Los Angeles", "CA", "90001", "USA", 1⟩]

/-- C8 witness: the success payload on the empty database returns the two
created addresses in input order, both referencing the created user. -/
theorem createUserWithAddresses_success_spec_witness :
    (createUserWithAddresses db0 dataS false).1 = .ok (userS, addrsS) ∧
    (addrsS.length = dataS.addresses.length ∧
     addrsS.map (fun r => r.userId) = dataS.addresses.map (fun _ => userS.id) ∧
     addrsS.map (fun r => (r.street, r.city, r.state, r.zipCode, r.country)) =
       dataS.addresses.map (fun a => (a.street, a.city, a.state, a.zipCode, a.country)) ∧
     (createUserWithAddresses db0 dataS false).2.users = db0.users ++ [userS] ∧
     (createUserWithAddresses db0 dataS false).2.addresses = db0.addresses ++ addrsS) :=
  ⟨rfl, createUserWithAddresses_success_spec db0 dataS false userS addrsS rfl⟩

/-- C9: with an empty dependent list and the forced-failure flag unset (and
no unique-email conflict), createUserWithAddresses commits and returns the
created parent with an empty dependents list — the workflow engine itself
does not enforce the at-least-one-dependent rule. -/
theorem createUserWithAddresses_empty_addresses_commits
    (db : DBState) (data : CreateUserWithAddressesData)
    (hempty : data.addresses = [])
    (hemail : emailTaken db data.user.email = false) :
    createUserWithAddresses db data false =
      (.ok (⟨db.nextUserId, data.user.name, data.user.email⟩, []),
       { db with users := db.users ++ [⟨db.nextUserId, data.user.name, data.user.email⟩],
                 nextUserId := db.nextUserId + 1 }) := by
  simp [createUserWithAddresses, userCreate, createAddressesLoop, hempty, hemail]

/-- C9 witness: creating a user with no addresses on the empty database
commits and returns the user together with an empty address list. -/
theorem createUserWithAddresses_empty_addresses_commits_witness :
    (⟨⟨"Solo", "solo@example.com"⟩, []⟩ : CreateUserWithAddressesData).addresses = [] ∧
    emailTaken db0 "solo@example.com" = false ∧
    createUserWithAddresses db0 ⟨⟨"Solo", "solo@example.com"⟩, []⟩ false =
      (.ok (⟨db0.nextUserId, "Solo", "solo@example.com"⟩, []),
       { db0 with users := db0.users ++ [⟨db0.nextUserId, "Solo", "solo@example.com"⟩],
                  nextUserId := db0.nextUserId + 1 }) :=
  ⟨rfl, rfl,
   createUserWithAddresses_empty_addresses_commits db0 ⟨⟨"Solo", "solo@example.com"⟩, []⟩ rfl rfl⟩

/-- C6 counterexample: the read-committed demonstration does not leave the
database unchanged — on a database holding user 1 named Alice, the call
commits transaction 1 and the name update persists after the call. -/
theorem readCommitted_demo_persists_write :
    (demonstrateReadCommitted dbA 1).2.1 ≠ dbA := by
  decide

/-- C6 amended: only the dirty-read demonstration rolls back all of its
writes (its post-call state always equals the pre-call state); the
read-committed and repeatable-read demonstrations commit a transaction whose
name update persists, and the phantom-read demonstration, when its insert
succeeds, commits a transaction whose inserted row persists. -/
theorem isolation_demos_persistence (db : DBState) (userId now : Nat) :
    (demonstrateDirtyRead db userId).2.1 = db ∧
    (∀ u, findUserByPk db userId = some u →
      (demonstrateReadCommitted db userId).2.1 =
        updateUserName db userId (u.name ++ "_UPDATED")) ∧
    (∀ u, findUserByPk db userId = some u →
      (demonstrateRepeatableRead db userId).2.1 =
        updateUserName db userId (u.name ++ "_UPDATED_BY_T2")) ∧
    (emailTaken db (phantomEmail now) = false →
      (demonstratePhantomRead db now).2.1.users.length = db.users.length + 1) := by
  refine ⟨?_, ?_, ?_, ?_⟩
  · cases hf : findUserByPk db userId <;>
      simp [demonstrateDirtyRead, hf, findUserByPk_updateUserName_self]
  · intro u hu
    simp [demonstrateReadCommitted, hu, findUserByPk_updateUserName_self]
  · intro u hu
    simp [demonstrateRepeatableRead, hu]
  · intro he
    simp [demonstratePhantomRead, userCreate, he]

/-- C6 amended witness: on the one-user database the dirty-read call leaves
the state unchanged, the read-committed and repeatable-read calls persist
the name update, and the phantom-read call persists the inserted row. -/
theorem isolation_demos_persistence_witness :
    (demonstrateDirtyRead dbA 1).2.1 = dbA ∧
    (findUserByPk dbA 1 = some ⟨1, "Alice", "alice@example.com"⟩ ∧
     (demonstrateReadCommitted dbA 1).2.1 = updateUserName dbA 1 ("Alice" ++ "_UPDATED")) ∧
    (findUserByPk dbA 1 = some ⟨1, "Alice", "alice@example.com"⟩ ∧
     (demonstrateRepeatableRead dbA 1).2.1 = updateUserName dbA 1 ("Alice" ++ "_UPDATED_BY_T2")) ∧
    (emailTaken dbA (phantomEmail 0) = false ∧
     (demonstratePhantomRead dbA 0).2.1.users.length = dbA.users.length + 1) :=
  ⟨(isolation_demos_persistence dbA 1 0).1,
   ⟨rfl, (isolation_demos_persistence dbA 1 0).2.1 ⟨1, "Alice", "alice@example.com"⟩ rfl⟩,
   ⟨rfl, (isolation_demos_persistence dbA 1 0).2.2.1 ⟨1, "Alice", "alice@example.com"⟩ rfl⟩,
   ⟨rfl, (isolation_demos_persistence dbA 1 0).2.2.2 rfl⟩⟩

/-- C7 counterexample: when the phantom-read insert hits the unique-email
constraint (the database already holds `phantom_42@example.com` and the
clock reads 42), the call raises, but its catch handler rolls back only
transaction 1 — transaction 2 is left open across the harness call. -/
theorem phantomRead_failure_leaks_context :
    (demonstratePhantomRead dbP 42).1.isOk = false ∧
    (demonstratePhantomRead dbP 42).2.2 =
      ⟨some TxEnd.rolledBack, some TxEnd.leftOpen⟩ := by
  constructor <;> rfl

/-- C7 amended: the dirty-read, read-committed, repeatable-read and
non-repeatable-read demonstrations terminate both transactional contexts
(commit or rollback) before returning or raising on every execution path;
the phantom-read demonstration does so whenever its insert does not hit a
unique-email violation, but on that failure path it leaves transaction 2
open. -/
theorem isolation_demos_terminate_contexts (db : DBState) (userId now : Nat) :
    TxLog.noLeak (demonstrateDirtyRead db userId).2.2 ∧
    TxLog.noLeak (demonstrateReadCommitted db userId).2.2 ∧
    TxLog.noLeak (demonstrateRepeatableRead db userId).2.2 ∧
    TxLog.noLeak (demonstrateNonRepeatableRead db userId).2.2 ∧
    (emailTaken db (phantomEmail now) = false →
      TxLog.noLeak (demonstratePhantomRead db now).2.2) := by
  refine ⟨?_, ?_, ?_, ?_, ?_⟩
  · cases hf : findUserByPk db userId <;>
      simp [demonstrateDirtyRead, hf, findUserByPk_updateUserName_self, TxLog.noLeak]
  · cases hf : findUserByPk db userId <;>
      simp [demonstrateReadCommitted, hf, findUserByPk_updateUserName_self, TxLog.noLeak]
  · cases hf : findUserByPk db userId <;>
      simp [demonstrateRepeatableRead, hf, TxLog.noLeak]
  · cases hf : findUserByPk db userId with
    | none => simp [demonstrateNonRepeatableRead, hf, TxLog.noLeak]
    | some u1 =>
      cases hf2 : findUserByPk (updateUserName db userId (u1.name ++ "_UPDATED")) userId <;>
        simp [demonstrateNonRepeatableRead, hf, hf2, TxLog.noLeak]
  · intro he
    simp [demonstratePhantomRead, userCreate, he, TxLog.noLeak]

/-- C7 amended witness: on the one-user database every demonstration ends
both contexts, and the phantom-read call at clock reading 0 (no email
conflict) ends both contexts as well. -/
theorem isolation_demos_terminate_contexts_witness :
    TxLog.noLeak (demonstrateDirtyRead dbA 1).2.2 ∧
    TxLog.noLeak (demonstrateReadCommitted dbA 1).2.2 ∧
    TxLog.noLeak (demonstrateRepeatableRead dbA 1).2.2 ∧
    TxLog.noLeak (demonstrateNonRepeatableRead dbA 1).2.2 ∧
    (emailTaken dbA (phantomEmail 0) = false ∧
     TxLog.noLeak (demonstratePhantomRead dbA 0).2.2) :=
  ⟨(isolation_demos_terminate_contexts dbA 1 0).1,
   (isolation_demos_terminate_contexts dbA 1 0).2.1,
   (isolation_demos_terminate_contexts dbA 1 0).2.2.1,
   (isolation_demos_terminate_contexts dbA 1 0).2.2.2.1,
   rfl, (isolation_demos_terminate_contexts dbA 1 0).2.2.2.2 rfl⟩
